import Mathlib

/-!
Formal model of the promise-evaluation engine of the self-promise
repository (src/self-promise/src/evaluator/rule_based.py,
src/self-promise/src/evaluator/llm_based.py and
src/self-promise/src/terra_api/client.py).

Timestamps are modelled as integers counting microseconds since
0001-01-01T00:00:00 (one less than the proleptic Gregorian ordinal used by
the Python datetime module, scaled to microseconds), which is exactly the
arithmetic the datetime module performs internally.  Python floats that
only ever hold ratios of exact integer quantities (durations in minutes,
average heart rates, fulfillment percentages) are modelled as rationals.

The calendar functions below model the semantics of the datetime module
(an external dependency of the evaluator): dayNumber is date.toordinal
minus one, civilFromDays is the inverse component extraction, following
the divmod cascade of the CPython implementation.
-/

namespace SelfPromise

/-- Microseconds in one minute. -/
def usPerMin : Int := 60000000

/-- Microseconds in one day. -/
def usPerDay : Int := 86400000000

/-- Cumulative day count before month m (1-based); leap is 0 or 1 and is
added from March onwards.  Out-of-range months clamp to the neighbouring
value, mirroring how the model is only ever applied to months 1..12. -/
def daysBeforeMonth (leap m : Int) : Int :=
  if m ≤ 1 then 0 else if m ≤ 2 then 31 else if m ≤ 3 then 59 + leap
  else if m ≤ 4 then 90 + leap else if m ≤ 5 then 120 + leap else if m ≤ 6 then 151 + leap
  else if m ≤ 7 then 181 + leap else if m ≤ 8 then 212 + leap else if m ≤ 9 then 243 + leap
  else if m ≤ 10 then 273 + leap else if m ≤ 11 then 304 + leap
  else if m ≤ 12 then 334 + leap else 365 + leap

/-- 1 when year y is a Gregorian leap year, else 0. -/
def isLeapFlag (y : Int) : Int :=
  if y % 4 = 0 ∧ (y % 100 ≠ 0 ∨ y % 400 = 0) then 1 else 0

/-- Number of days in month m of a year with the given leap flag. -/
def daysInMonth (leap m : Int) : Int :=
  if m = 2 then 28 + leap else if m = 4 ∨ m = 6 ∨ m = 9 ∨ m = 11 then 30 else 31

/-- Days between 0001-01-01 and the given civil date
(date.toordinal minus one in Python terms). -/
def dayNumber (y m d : Int) : Int :=
  365 * (y - 1) + (y - 1) / 4 - (y - 1) / 100 + (y - 1) / 400 +
    daysBeforeMonth (isLeapFlag y) m + d - 1

/-- Month and day-of-month from a day-of-year r3 (0-based, may reach
365 + leap - 1); year is passed through. -/
def monthDay (year leap r3 : Int) : Int × Int × Int :=
  if r3 < 31 then (year, 1, r3 + 1)
  else if r3 < 59 + leap then (year, 2, r3 - 31 + 1)
  else if r3 < 90 + leap then (year, 3, r3 - (59 + leap) + 1)
  else if r3 < 120 + leap then (year, 4, r3 - (90 + leap) + 1)
  else if r3 < 151 + leap then (year, 5, r3 - (120 + leap) + 1)
  else if r3 < 181 + leap then (year, 6, r3 - (151 + leap) + 1)
  else if r3 < 212 + leap then (year, 7, r3 - (181 + leap) + 1)
  else if r3 < 243 + leap then (year, 8, r3 - (212 + leap) + 1)
  else if r3 < 273 + leap then (year, 9, r3 - (243 + leap) + 1)
  else if r3 < 304 + leap then (year, 10, r3 - (273 + leap) + 1)
  else if r3 < 334 + leap then (year, 11, r3 - (304 + leap) + 1)
  else (year, 12, r3 - (334 + leap) + 1)

/-- Civil date from the bounded quotients of the 400/100/4/1 year cascade,
following the structure of the CPython ord2ymd routine. -/
def civilCore (n400 n100 n4 n1 r3 : Int) : Int × Int × Int :=
  let year := 400 * n400 + 100 * n100 + 4 * n4 + n1 + 1
  if n1 = 4 ∨ n100 = 4 then (year - 1, 12, 31)
  else monthDay year (if n1 = 3 ∧ (n4 ≠ 24 ∨ n100 = 3) then 1 else 0) r3

/-- Civil date (year, month, day) of a day number. -/
def civilFromDays (z : Int) : Int × Int × Int :=
  civilCore (z / 146097) (z % 146097 / 36524) (z % 146097 % 36524 / 1461)
    (z % 146097 % 36524 % 1461 / 365) (z % 146097 % 36524 % 1461 % 365)

theorem dbm_1 (leap : Int) : daysBeforeMonth leap 1 = 0 := by norm_num [daysBeforeMonth]

theorem dbm_2 (leap : Int) : daysBeforeMonth leap 2 = 31 := by norm_num [daysBeforeMonth]

theorem dbm_3 (leap : Int) : daysBeforeMonth leap 3 = 59 + leap := by norm_num [daysBeforeMonth]

theorem dbm_4 (leap : Int) : daysBeforeMonth leap 4 = 90 + leap := by norm_num [daysBeforeMonth]

theorem dbm_5 (leap : Int) : daysBeforeMonth leap 5 = 120 + leap := by norm_num [daysBeforeMonth]

theorem dbm_6 (leap : Int) : daysBeforeMonth leap 6 = 151 + leap := by norm_num [daysBeforeMonth]

theorem dbm_7 (leap : Int) : daysBeforeMonth leap 7 = 181 + leap := by norm_num [daysBeforeMonth]

theorem dbm_8 (leap : Int) : daysBeforeMonth leap 8 = 212 + leap := by norm_num [daysBeforeMonth]

theorem dbm_9 (leap : Int) : daysBeforeMonth leap 9 = 243 + leap := by norm_num [daysBeforeMonth]

theorem dbm_10 (leap : Int) : daysBeforeMonth leap 10 = 273 + leap := by
  norm_num [daysBeforeMonth]

theorem dbm_11 (leap : Int) : daysBeforeMonth leap 11 = 304 + leap := by
  norm_num [daysBeforeMonth]

theorem dbm_12 (leap : Int) : daysBeforeMonth leap 12 = 334 + leap := by
  norm_num [daysBeforeMonth]

theorem dbm_13 (leap : Int) : daysBeforeMonth leap 13 = 365 + leap := by
  norm_num [daysBeforeMonth]

theorem dim_1 (leap : Int) : daysInMonth leap 1 = 31 := by norm_num [daysInMonth]

theorem dim_2 (leap : Int) : daysInMonth leap 2 = 28 + leap := by norm_num [daysInMonth]

theorem dim_3 (leap : Int) : daysInMonth leap 3 = 31 := by norm_num [daysInMonth]

theorem dim_4 (leap : Int) : daysInMonth leap 4 = 30 := by norm_num [daysInMonth]

theorem dim_5 (leap : Int) : daysInMonth leap 5 = 31 := by norm_num [daysInMonth]

theorem dim_6 (leap : Int) : daysInMonth leap 6 = 30 := by norm_num [daysInMonth]

theorem dim_7 (leap : Int) : daysInMonth leap 7 = 31 := by norm_num [daysInMonth]

theorem dim_8 (leap : Int) : daysInMonth leap 8 = 31 := by norm_num [daysInMonth]

theorem dim_9 (leap : Int) : daysInMonth leap 9 = 30 := by norm_num [daysInMonth]

theorem dim_10 (leap : Int) : daysInMonth leap 10 = 31 := by norm_num [daysInMonth]

theorem dim_11 (leap : Int) : daysInMonth leap 11 = 30 := by norm_num [daysInMonth]

theorem dim_12 (leap : Int) : daysInMonth leap 12 = 31 := by norm_num [daysInMonth]

set_option maxHeartbeats 1600000 in
/-- The month/day extraction is inverse to the cumulative month table and
produces a valid month and day. -/
theorem monthDay_spec (year leap r3 y m d : Int)
    (h : monthDay year leap r3 = (y, m, d))
    (hl : leap = 0 ∨ leap = 1) (h0 : 0 ≤ r3) (h1 : r3 < 365 + leap) :
    y = year ∧ 1 ≤ m ∧ m ≤ 12 ∧ 1 ≤ d ∧
      d ≤ daysInMonth leap m ∧ daysBeforeMonth leap m + d - 1 = r3 := by
  unfold monthDay at h
  by_cases c1 : r3 < 31
  · rw [if_pos c1] at h
    injection h with hy h2; injection h2 with hm hd
    subst hy; subst hm; subst hd
    refine ⟨rfl, ?_⟩
    simp only [dbm_1, dim_1]; omega
  · rw [if_neg c1] at h
    by_cases c2 : r3 < 59 + leap
    · rw [if_pos c2] at h
      injection h with hy h2; injection h2 with hm hd
      subst hy; subst hm; subst hd
      refine ⟨rfl, ?_⟩
      simp only [dbm_2, dim_2]; omega
    · rw [if_neg c2] at h
      by_cases c3 : r3 < 90 + leap
      · rw [if_pos c3] at h
        injection h with hy h2; injection h2 with hm hd
        subst hy; subst hm; subst hd
        refine ⟨rfl, ?_⟩
        simp only [dbm_3, dim_3]; omega
      · rw [if_neg c3] at h
        by_cases c4 : r3 < 120 + leap
        · rw [if_pos c4] at h
          injection h with hy h2; injection h2 with hm hd
          subst hy; subst hm; subst hd
          refine ⟨rfl, ?_⟩
          simp only [dbm_4, dim_4]; omega
        · rw [if_neg c4] at h
          by_cases c5 : r3 < 151 + leap
          · rw [if_pos c5] at h
            injection h with hy h2; injection h2 with hm hd
            subst hy; subst hm; subst hd
            refine ⟨rfl, ?_⟩
            simp only [dbm_5, dim_5]; omega
          · rw [if_neg c5] at h
            by_cases c6 : r3 < 181 + leap
            · rw [if_pos c6] at h
              injection h with hy h2; injection h2 with hm hd
              subst hy; subst hm; subst hd
              refine ⟨rfl, ?_⟩
              simp only [dbm_6, dim_6]; omega
            · rw [if_neg c6] at h
              by_cases c7 : r3 < 212 + leap
              · rw [if_pos c7] at h
                injection h with hy h2; injection h2 with hm hd
                subst hy; subst hm; subst hd
                refine ⟨rfl, ?_⟩
                simp only [dbm_7, dim_7]; omega
              · rw [if_neg c7] at h
                by_cases c8 : r3 < 243 + leap
                · rw [if_pos c8] at h
                  injection h with hy h2; injection h2 with hm hd
                  subst hy; subst hm; subst hd
                  refine ⟨rfl, ?_⟩
                  simp only [dbm_8, dim_8]; omega
                · rw [if_neg c8] at h
                  by_cases c9 : r3 < 273 + leap
                  · rw [if_pos c9] at h
                    injection h with hy h2; injection h2 with hm hd
                    subst hy; subst hm; subst hd
                    refine ⟨rfl, ?_⟩
                    simp only [dbm_9, dim_9]; omega
                  · rw [if_neg c9] at h
                    by_cases c10 : r3 < 304 + leap
                    · rw [if_pos c10] at h
                      injection h with hy h2; injection h2 with hm hd
                      subst hy; subst hm; subst hd
                      refine ⟨rfl, ?_⟩
                      simp only [dbm_10, dim_10]; omega
                    · rw [if_neg c10] at h
                      by_cases c11 : r3 < 334 + leap
                      · rw [if_pos c11] at h
                        injection h with hy h2; injection h2 with hm hd
                        subst hy; subst hm; subst hd
                        refine ⟨rfl, ?_⟩
                        simp only [dbm_11, dim_11]; omega
                      · rw [if_neg c11] at h
                        injection h with hy h2; injection h2 with hm hd
                        subst hy; subst hm; subst hd
                        refine ⟨rfl, ?_⟩
                        simp only [dbm_12, dim_12]; omega

/-- The leap test via the year cascade quotients agrees with the leap test
on the reconstructed year. -/
theorem leapFlag_eq (n400 n100 n4 n1 : Int)
    (hb : 0 ≤ n100 ∧ n100 ≤ 3 ∧ 0 ≤ n4 ∧ n4 ≤ 24 ∧ 0 ≤ n1 ∧ n1 ≤ 3) :
    isLeapFlag (400 * n400 + 100 * n100 + 4 * n4 + n1 + 1) =
      (if n1 = 3 ∧ (n4 ≠ 24 ∨ n100 = 3) then 1 else 0) := by
  unfold isLeapFlag
  split_ifs <;> omega

set_option maxHeartbeats 1600000 in
/-- The year cascade together with the month extraction is inverse to
dayNumber and produces a valid civil date. -/
theorem civilCore_spec (n400 n100 n4 n1 r3 y m d : Int)
    (h : civilCore n400 n100 n4 n1 r3 = (y, m, d))
    (hb : 0 ≤ n100 ∧ n100 ≤ 4 ∧ 0 ≤ n4 ∧ n4 ≤ 24 ∧ 0 ≤ n1 ∧ n1 ≤ 4 ∧ 0 ≤ r3 ∧ r3 < 365)
    (h4 : n1 = 4 → r3 = 0 ∧ n4 ≤ 23)
    (h100 : n100 = 4 → n4 = 0 ∧ n1 = 0 ∧ r3 = 0) :
    dayNumber y m d = 146097 * n400 + 36524 * n100 + 1461 * n4 + 365 * n1 + r3 ∧
      1 ≤ m ∧ m ≤ 12 ∧ 1 ≤ d ∧ d ≤ daysInMonth (isLeapFlag y) m := by
  simp only [civilCore] at h
  by_cases hs : n1 = 4 ∨ n100 = 4
  · rw [if_pos hs] at h
    injection h with hy h2; injection h2 with hm hd
    subst hy; subst hm; subst hd
    unfold dayNumber
    rw [dbm_12, dim_12]
    unfold isLeapFlag
    split_ifs <;> omega
  · rw [if_neg hs] at h
    have hml := monthDay_spec _ _ _ _ _ _ h
      (by split_ifs <;> omega) (by omega)
      (by split_ifs <;> omega)
    obtain ⟨hy, hm1, hm2, hd1, hd2, hr⟩ := hml
    subst hy
    have hleap := leapFlag_eq n400 n100 n4 n1 (by omega)
    rw [hleap]
    unfold dayNumber
    rw [hleap]
    exact ⟨by omega, hm1, hm2, hd1, hd2⟩

/-- Round trip: reconstructing the day number from the extracted civil date
is the identity, and the extracted date is valid. -/
theorem civilFromDays_spec (z y m d : Int) (h : civilFromDays z = (y, m, d)) :
    dayNumber y m d = z ∧ 1 ≤ m ∧ m ≤ 12 ∧ 1 ≤ d ∧ d ≤ daysInMonth (isLeapFlag y) m := by
  unfold civilFromDays at h
  have hc := civilCore_spec _ _ _ _ _ _ _ _ h (by omega) (by omega) (by omega)
  exact ⟨by omega, hc.2⟩

/-- The sum of the days-before-month table and the month length advances
the table by one month. -/
theorem dbm_succ (leap m : Int) (h1 : 1 ≤ m) (h2 : m ≤ 12) :
    daysBeforeMonth leap (m + 1) = daysBeforeMonth leap m + daysInMonth leap m := by
  interval_cases m <;>
    simp [dbm_1, dbm_2, dbm_3, dbm_4, dbm_5, dbm_6, dbm_7, dbm_8, dbm_9, dbm_10,
      dbm_11, dbm_12, dbm_13, dim_1, dim_2, dim_3, dim_4, dim_5, dim_6, dim_7,
      dim_8, dim_9, dim_10, dim_11, dim_12] <;>
    omega

/-- Turning a civil date back into a timestamp at midnight
(datetime given year, month and day). -/
def mkDate (y m d : Int) : Int := dayNumber y m d * usPerDay

/-- Day number containing a timestamp. -/
def dayOf (t : Int) : Int := t / usPerDay

/-- Year component of a timestamp. -/
def yearOf (t : Int) : Int := (civilFromDays (dayOf t)).1

/-- Month component of a timestamp. -/
def monthOf (t : Int) : Int := (civilFromDays (dayOf t)).2.1

/-- Day-of-month component of a timestamp. -/
def domOf (t : Int) : Int := (civilFromDays (dayOf t)).2.2

/-- Weekday of a timestamp, Monday = 0, as in Python date.weekday
(day number 0, i.e. 0001-01-01, is a Monday). -/
def weekdayOf (t : Int) : Int := dayOf t % 7

/-- Midnight at the first day of the month after the one containing t
(datetime of year plus one, January 1st, when the month is December). -/
def nextMonthStart (t : Int) : Int :=
  if monthOf t = 12 then mkDate (yearOf t + 1) 1 1 else mkDate (yearOf t) (monthOf t + 1) 1

/-- Truncating a timestamp to its civil date gives the midnight of the same
day number: the datetime constructor applied to the extracted components
recovers the day. -/
theorem mkDate_truncate (t : Int) :
    mkDate (yearOf t) (monthOf t) (domOf t) = dayOf t * usPerDay := by
  rcases hcv : civilFromDays (dayOf t) with ⟨y, m, d⟩
  have hs := civilFromDays_spec _ _ _ _ hcv
  simp only [mkDate, yearOf, monthOf, domOf, hcv]
  rw [hs.1]

/-- The start of the next month is strictly later than the current
timestamp, and at least one whole day later. -/
theorem nextMonthStart_gt (t : Int) :
    t < nextMonthStart t ∧ dayOf t + 1 ≤ dayOf (nextMonthStart t) := by
  rcases hcv : civilFromDays (dayOf t) with ⟨y, m, d⟩
  have hs := civilFromDays_spec _ _ _ _ hcv
  obtain ⟨hrt, hm1, hm2, hd1, hd2⟩ := hs
  unfold nextMonthStart
  simp only [yearOf, monthOf, domOf, hcv]
  by_cases h12 : m = 12
  · rw [if_pos h12]
    subst h12
    have hnext : dayNumber y 12 d + 1 ≤ dayNumber (y + 1) 1 1 := by
      have hd31 : d ≤ 31 := by
        have := dim_12 (isLeapFlag y); omega
      unfold dayNumber
      rw [dbm_1, dbm_12]
      unfold isLeapFlag
      split_ifs <;> omega
    unfold mkDate dayOf usPerDay at *
    omega
  · rw [if_neg h12]
    have hnext : dayNumber y m d + 1 ≤ dayNumber y (m + 1) 1 := by
      unfold dayNumber
      rw [dbm_succ _ _ hm1 hm2]
      omega
    unfold mkDate dayOf usPerDay at *
    omega

/-- Start of the period containing a timestamp (get period start in
rule_based.py): day truncates to midnight via the date components, week
subtracts the weekday in whole days (keeping the time of day), month takes
the first of the month; any other period string returns the timestamp. -/
def periodStart (period : String) (t : Int) : Int :=
  if period = "day" then mkDate (yearOf t) (monthOf t) (domOf t)
  else if period = "week" then t - weekdayOf t * usPerDay
  else if period = "month" then mkDate (yearOf t) (monthOf t) 1
  else t

/-- End of a period starting at t (get period end in rule_based.py): one
unit later minus one microsecond; months use the first of the next month;
unknown period strings default to a day. -/
def periodEnd (period : String) (t : Int) : Int :=
  if period = "day" then t + usPerDay - 1
  else if period = "week" then t + 7 * usPerDay - 1
  else if period = "month" then nextMonthStart t - 1
  else t + usPerDay - 1

/-- Cursor advance of the period-generation loop in group by period:
one day, seven days, or the first of the next month.  For any other period
string the Python loop does not advance the cursor at all (and hence never
terminates when the range is nonempty); the model mirrors the no-advance. -/
def advanceCursor (period : String) (t : Int) : Int :=
  if period = "day" then t + usPerDay
  else if period = "week" then t + 7 * usPerDay
  else if period = "month" then nextMonthStart t
  else t

/-- The period strings the loop can advance on. -/
def knownPeriod (period : String) : Bool :=
  period = "day" || period = "week" || period = "month"

/-- For the known period strings the cursor advance is strictly
increasing, by at least one whole day. -/
theorem advanceCursor_gt (period : String) (t : Int) (h : knownPeriod period = true) :
    t < advanceCursor period t ∧ dayOf t + 1 ≤ dayOf (advanceCursor period t) := by
  unfold knownPeriod at h
  unfold advanceCursor
  rcases Bool.or_eq_true_iff.mp h with h' | hm
  · rcases Bool.or_eq_true_iff.mp h' with hd | hw
    · rw [if_pos (by simpa using hd)]
      unfold dayOf usPerDay
      omega
    · have hw' : period = "week" := by simpa using hw
      rw [if_neg (by simp [hw']), if_pos hw']
      unfold dayOf usPerDay
      omega
  · have hm' : period = "month" := by simpa using hm
    rw [if_neg (by simp [hm']), if_neg (by simp [hm']), if_pos hm']
    exact nextMonthStart_gt t

/-- Dictionary key insertion: a repeated key leaves the dictionary
unchanged (initialisation always stores an empty list), a new key is
appended at the end, as Python dicts preserve insertion order. -/
def insertKey (ks : List Int) (k : Int) : List Int := if k ∈ ks then ks else ks ++ [k]

/-- The period-generation loop of group by period, with explicit fuel.
The fuel chosen by callers (periodFuel) dominates the true iteration
count, because every advance moves the cursor at least one day forward
(advanceCursor gt); genKeys fuel irrelevant below makes this precise. -/
def genKeys (period : String) : Nat → Int → Int → List Int → List Int
  | 0, _, _, acc => acc
  | fuel + 1, cursor, endD, acc =>
      if cursor ≤ endD then
        genKeys period fuel (advanceCursor period cursor) endD
          (insertKey acc (periodStart period cursor))
      else acc

/-- Fuel bound used for the period-generation loop. -/
def periodFuel (startD endD : Int) : Nat := (dayOf endD - dayOf startD).toNat + 2

/-- Any fuel at least the whole-day span of the remaining range plus one
produces the same key list: the loop result is fuel-insensitive above the
bound used by the callers. -/
theorem genKeys_fuel_irrelevant (period : String) (hk : knownPeriod period = true)
    (endD : Int) :
    ∀ f₁ f₂ : Nat, ∀ cursor : Int, ∀ acc : List Int,
      (dayOf endD + 1 - dayOf cursor).toNat ≤ f₁ →
      (dayOf endD + 1 - dayOf cursor).toNat ≤ f₂ →
      genKeys period f₁ cursor endD acc = genKeys period f₂ cursor endD acc := by
  intro f₁
  induction f₁ with
  | zero =>
    intro f₂ cursor acc hb₁ hb₂
    have hgt : ¬ cursor ≤ endD := by
      intro hc
      have hmono : dayOf cursor ≤ dayOf endD := by
        unfold dayOf usPerDay
        omega
      omega
    cases f₂ with
    | zero => rfl
    | succ n =>
      show acc = (if cursor ≤ endD then
          genKeys period n (advanceCursor period cursor) endD
            (insertKey acc (periodStart period cursor))
        else acc)
      rw [if_neg hgt]
  | succ g ih =>
    intro f₂ cursor acc hb₁ hb₂
    by_cases hc : cursor ≤ endD
    · have hmono : dayOf cursor ≤ dayOf endD := by
        unfold dayOf usPerDay
        omega
      cases f₂ with
      | zero => omega
      | succ n =>
        show (if cursor ≤ endD then
                genKeys period g (advanceCursor period cursor) endD
                  (insertKey acc (periodStart period cursor))
              else acc) =
            (if cursor ≤ endD then
                genKeys period n (advanceCursor period cursor) endD
                  (insertKey acc (periodStart period cursor))
              else acc)
        rw [if_pos hc, if_pos hc]
        have hadv := advanceCursor_gt period cursor hk
        exact ih n _ _ (by omega) (by omega)
    · cases f₂ with
      | zero =>
        show (if cursor ≤ endD then
            genKeys period g (advanceCursor period cursor) endD
              (insertKey acc (periodStart period cursor))
          else acc) = acc
        rw [if_neg hc]
      | succ n =>
        show (if cursor ≤ endD then
                genKeys period g (advanceCursor period cursor) endD
                  (insertKey acc (periodStart period cursor))
              else acc) =
            (if cursor ≤ endD then
                genKeys period n (advanceCursor period cursor) endD
                  (insertKey acc (periodStart period cursor))
              else acc)
        rw [if_neg hc, if_neg hc]

/-- The loop inserts at least one key whenever the range is nonempty:
the accumulated key list never shrinks. -/
theorem genKeys_length_mono (period : String) :
    ∀ (f : Nat) (cursor endD : Int) (acc : List Int),
      acc.length ≤ (genKeys period f cursor endD acc).length := by
  intro f
  induction f with
  | zero => intro cursor endD acc; exact Nat.le_refl _
  | succ g ih =>
    intro cursor endD acc
    show acc.length ≤ (if cursor ≤ endD then
        genKeys period g (advanceCursor period cursor) endD
          (insertKey acc (periodStart period cursor))
      else acc).length
    by_cases hc : cursor ≤ endD
    · rw [if_pos hc]
      refine Nat.le_trans ?_ (ih _ _ _)
      unfold insertKey
      split_ifs
      · exact Nat.le_refl _
      · simp
    · rw [if_neg hc]

/-- Grouping items into period buckets (group by period in rule_based.py).
Generates the keys by the cursor loop, then files every item whose own
period start matches a generated key into that bucket, dropping the rest.
When the period string is unknown and the range is nonempty, the Python
loop never terminates; this is modelled as the absence of a result. -/
def groupByPeriod {α : Type} (items : List α) (period : String)
    (startD endD : Int) (tsOf : α → Int) : Option (List (Int × List α)) :=
  if endD < startD then some []
  else if knownPeriod period then
    some ((genKeys period (periodFuel startD endD) startD endD []).map
      (fun k => (k, items.filter (fun it => periodStart period (tsOf it) == k))))
  else none

/-- One heart-rate data point (timestamp, heart rate). -/
structure HRSample where
  ts : Int
  heartRate : Int
deriving DecidableEq

/-- One recorded exercise session.  The evaluators read only the start and
end times; the remaining dictionary keys are never consulted. -/
structure Session where
  startTime : Int
  endTime : Int
deriving DecidableEq

/-- One elevated heart-rate interval, as produced by the detector or
supplied in the evidence. -/
structure Interval where
  startTime : Int
  endTime : Int
  durationMinutes : ℚ
  averageHeartRate : ℚ
deriving DecidableEq

/-- Evidence dictionary; a missing key is modelled as none and every
evaluator falls back on its documented default. -/
structure Evidence where
  heartRateData : Option (List HRSample)
  exerciseSessions : Option (List Session)
  elevatedHrPeriods : Option (List Interval)
deriving DecidableEq

/-- Promise dictionary: type, parsed start and end timestamps, and the
optional parameters with their documented defaults. -/
structure Promise where
  ptype : String
  startDate : Int
  endDate : Int
  frequency : Option Int
  period : Option String
  heartRateThreshold : Option ℚ
  durationMinutes : Option ℚ
  maxGapDays : Option Int
deriving DecidableEq

/-- Per-period entry of the details breakdown (the duration evaluator
labels the count qualifying sessions, with the same content). -/
structure PeriodDetail where
  periodStart : Int
  periodEnd : Int
  sessionsCount : Nat
  requiredCount : Int
  fulfilled : Bool
deriving DecidableEq

/-- One recorded gap of the consistency evaluator. -/
structure GapDetail where
  gapStart : Int
  gapEnd : Int
  gapDays : Int
deriving DecidableEq

/-- Structured details breakdown of a verdict, one shape per evaluator. -/
inductive Details where
  | empty
  | freq (periods : List PeriodDetail) (totalPeriods fulfilledPeriods : Nat)
  | dur (periods : List PeriodDetail) (totalPeriods fulfilledPeriods qualifyingSessions : Nat)
  | consistency (maxGapDays : Int) (gapsFound : Nat) (gaps : List GapDetail)
  | llmFreq (sessionsFound : Nat) (requiredFrequency : Int) (period : String)
  | llmDur (qualifyingPeriods : Nat) (heartRateThreshold durationMinutes : ℚ)
  | llmOther
deriving DecidableEq

/-- Evaluation result. -/
structure Verdict where
  fulfilled : Bool
  confidence : ℚ
  reasoning : String
  details : Details
deriving DecidableEq

/-- Average heart rate over the samples whose timestamps lie in the closed
interval, zero when no sample does (calculate average hr in client.py). -/
def averageHr (data : List HRSample) (s e : Int) : ℚ :=
  let rel := data.filter (fun d => decide (s ≤ d.ts) && decide (d.ts ≤ e))
  if rel.isEmpty then 0
  else ((rel.map (fun d => (d.heartRate : ℚ))).sum) / (rel.length : ℚ)

/-- One pass of the elevated heart-rate scan: returns the emitted
intervals and the start of the still-open interval, if any. -/
def sweepGo (data : List HRSample) (threshold minDur : ℚ) :
    List HRSample → Option Int → List Interval × Option Int
  | [], cur => ([], cur)
  | pt :: rest, cur =>
      if (pt.heartRate : ℚ) ≥ threshold then
        sweepGo data threshold minDur rest
          (some (match cur with | none => pt.ts | some s => s))
      else
        match cur with
        | some s =>
            let dur : ℚ := ((pt.ts - s : Int) : ℚ) / (usPerMin : ℚ)
            let tail := sweepGo data threshold minDur rest none
            if dur ≥ minDur then
              (⟨s, pt.ts, dur, averageHr data s pt.ts⟩ :: tail.1, tail.2)
            else tail
        | none => sweepGo data threshold minDur rest none

/-- Elevated-interval detector
(check continuous elevated heart rate in client.py): scan the samples in
order, open an interval at the first at-or-above-threshold sample, close
it at the next below-threshold sample (emitting it when its duration in
minutes is at least the minimum), and close a still-open interval at the
last sample of the series. -/
def checkContinuousElevatedHeartRate (data : List HRSample)
    (threshold minDur : ℚ) : List Interval :=
  let res := sweepGo data threshold minDur data none
  match res.2 with
  | none => res.1
  | some s =>
      match data.getLast? with
      | none => res.1
      | some lastPt =>
          let dur : ℚ := ((lastPt.ts - s : Int) : ℚ) / (usPerMin : ℚ)
          if dur ≥ minDur then
            res.1 ++ [⟨s, lastPt.ts, dur, averageHr data s lastPt.ts⟩]
          else res.1

/-- Per-period detail entry of the frequency and duration evaluators. -/
def mkPeriodDetail (period : String) (frequency : Int) (count : Nat) (k : Int) :
    PeriodDetail :=
  { periodStart := k, periodEnd := periodEnd period k,
    sessionsCount := count, requiredCount := frequency,
    fulfilled := decide ((count : Int) ≥ frequency) }

/-- Periods of the frequency evaluator: sessions grouped over the promise
range by the period parameter. -/
def freqPeriods (p : Promise) (e : Evidence) : Option (List (Int × List Session)) :=
  groupByPeriod (e.exerciseSessions.getD []) (p.period.getD "week")
    p.startDate p.endDate (fun s => s.startTime)

/-- Number of periods whose item count meets the frequency parameter. -/
def countFulfilled {α : Type} (frequency : Int) (periods : List (Int × List α)) : Nat :=
  (periods.filter (fun pr => decide ((pr.2.length : Int) ≥ frequency))).length

/-- Fulfillment percentage with the division-by-zero guard of the code:
zero when there are no periods. -/
def pctOf (fc total : Nat) : ℚ := if total > 0 then (fc : ℚ) / (total : ℚ) else 0

/-- Detail entries of all periods, in generation order. -/
def periodDetails {α : Type} (period : String) (frequency : Int)
    (periods : List (Int × List α)) : List PeriodDetail :=
  periods.map (fun pr => mkPeriodDetail period frequency pr.2.length pr.1)

/-- Reasoning string of the frequency evaluator. -/
def freqReason (p : Promise) (fc total : Nat) : String :=
  "The promise required exercising " ++ toString (p.frequency.getD 1) ++
    " times per " ++ p.period.getD "week" ++ ". You met this requirement in " ++
    toString fc ++ " out of " ++ toString total ++ " " ++ p.period.getD "week" ++ "s."

/-- Frequency evaluator (evaluate exercise frequency in rule_based.py). -/
def evalFrequency (p : Promise) (e : Evidence) : Option Verdict :=
  match freqPeriods p e with
  | none => none
  | some periods =>
      some { fulfilled :=
               decide (pctOf (countFulfilled (p.frequency.getD 1) periods) periods.length ≥ 1),
             confidence := 1,
             reasoning := freqReason p (countFulfilled (p.frequency.getD 1) periods)
               periods.length,
             details := Details.freq
               (periodDetails (p.period.getD "week") (p.frequency.getD 1) periods)
               periods.length (countFulfilled (p.frequency.getD 1) periods) }

/-- Qualification test of the duration evaluator. -/
def qualifies (thr dm : ℚ) (iv : Interval) : Bool :=
  decide (iv.averageHeartRate ≥ thr) && decide (iv.durationMinutes ≥ dm)

/-- Qualifying intervals of the duration evaluator: those meeting both the
heart-rate threshold and the minimum duration. -/
def durQualifying (p : Promise) (e : Evidence) : List Interval :=
  (e.elevatedHrPeriods.getD []).filter
    (qualifies (p.heartRateThreshold.getD 120) (p.durationMinutes.getD 25))

/-- Periods of the duration evaluator: qualifying intervals grouped by
their start time. -/
def durPeriods (p : Promise) (e : Evidence) : Option (List (Int × List Interval)) :=
  groupByPeriod (durQualifying p e) (p.period.getD "week")
    p.startDate p.endDate (fun iv => iv.startTime)

/-- Reasoning string of the duration evaluator. -/
def durReason (p : Promise) (fc total : Nat) : String :=
  "The promise required exercising with a heart rate above " ++
    toString (p.heartRateThreshold.getD 120) ++ " bpm for at least " ++
    toString (p.durationMinutes.getD 25) ++ " minutes, " ++
    toString (p.frequency.getD 1) ++ " times per " ++ p.period.getD "week" ++
    ". You met this requirement in " ++ toString fc ++ " out of " ++
    toString total ++ " " ++ p.period.getD "week" ++ "s."

/-- Duration evaluator (evaluate exercise duration in rule_based.py).
Note that a missing elevated hr periods key defaults to the empty list;
the evaluator never invokes the detector itself. -/
def evalDuration (p : Promise) (e : Evidence) : Option Verdict :=
  match durPeriods p e with
  | none => none
  | some periods =>
      some { fulfilled :=
               decide (pctOf (countFulfilled (p.frequency.getD 1) periods) periods.length ≥ 1),
             confidence := 1,
             reasoning := durReason p (countFulfilled (p.frequency.getD 1) periods)
               periods.length,
             details := Details.dur
               (periodDetails (p.period.getD "week") (p.frequency.getD 1) periods)
               periods.length (countFulfilled (p.frequency.getD 1) periods)
               (durQualifying p e).length }

/-- Gap length in whole days (timedelta days attribute, floor division). -/
def gapDaysI (a b : Int) : Int := (b - a) / usPerDay

/-- Gap collection walk of the consistency evaluator: the carried cursor
starts at the promise start, moves to each session end in sorted order,
and is finally compared with the promise end. -/
def collectGaps (maxGap : Int) : Int → List Session → Int → List GapDetail
  | cur, [], endD =>
      if gapDaysI cur endD > maxGap then [⟨cur, endD, gapDaysI cur endD⟩] else []
  | cur, s :: rest, endD =>
      (if gapDaysI cur s.startTime > maxGap
        then [⟨cur, s.startTime, gapDaysI cur s.startTime⟩] else [])
        ++ collectGaps maxGap s.endTime rest endD

/-- Sessions sorted ascending by start time (Python sorted is stable, as
is mergeSort). -/
def sortedSessions (l : List Session) : List Session :=
  l.mergeSort (fun a b => decide (a.startTime ≤ b.startTime))

/-- The gaps recorded by the consistency evaluator. -/
def consGaps (p : Promise) (e : Evidence) : List GapDetail :=
  collectGaps (p.maxGapDays.getD 7) p.startDate
    (sortedSessions (e.exerciseSessions.getD [])) p.endDate

/-- Reasoning string of the consistency evaluator. -/
def consReason (p : Promise) (e : Evidence) : String :=
  "The promise required never going more than " ++ toString (p.maxGapDays.getD 7) ++
    " days without exercise. " ++
    (if (consGaps p e).isEmpty then "No gaps were found."
     else "Found " ++ toString (consGaps p e).length ++ " gaps exceeding " ++
       toString (p.maxGapDays.getD 7) ++ " days.")

/-- Consistency evaluator (evaluate exercise consistency in
rule_based.py). -/
def evalConsistency (p : Promise) (e : Evidence) : Verdict :=
  { fulfilled := (consGaps p e).isEmpty, confidence := 1,
    reasoning := consReason p e,
    details := Details.consistency (p.maxGapDays.getD 7) (consGaps p e).length
      (consGaps p e) }

/-- Rule-based evaluate: dispatch on the promise type, with a degraded
failure verdict for unknown types (never an exception).  The absent value
models the non-termination of the period loop on an unknown period string
over a nonempty range. -/
def evaluate (p : Promise) (e : Evidence) : Option Verdict :=
  if p.ptype = "exercise_frequency" then evalFrequency p e
  else if p.ptype = "exercise_duration" then evalDuration p e
  else if p.ptype = "exercise_consistency" then some (evalConsistency p e)
  else some { fulfilled := false, confidence := 0,
              reasoning := "Unknown promise type: " ++ p.ptype,
              details := Details.empty }

/-- Mock LLM evaluator (mock llm call in llm_based.py). -/
def llmEvaluate (p : Promise) (e : Evidence) : Verdict :=
  if p.ptype = "exercise_frequency" then
    { fulfilled := decide (((e.exerciseSessions.getD []).length : Int) ≥ p.frequency.getD 1),
      confidence := 85 / 100,
      reasoning := "Based on the evidence, the user promised to exercise " ++
        toString (p.frequency.getD 1) ++ " times per " ++ p.period.getD "week" ++
        " and the data shows " ++ toString (e.exerciseSessions.getD []).length ++
        " exercise sessions. " ++
        (if ((e.exerciseSessions.getD []).length : Int) ≥ p.frequency.getD 1
          then "This meets the criteria." else "This does not meet the criteria."),
      details := Details.llmFreq (e.exerciseSessions.getD []).length
        (p.frequency.getD 1) (p.period.getD "week") }
  else if p.ptype = "exercise_duration" then
    { fulfilled := decide ((durQualifying p e).length > 0),
      confidence := 9 / 10,
      reasoning := "The user promised to maintain a heart rate above " ++
        toString (p.heartRateThreshold.getD 120) ++ " bpm for at least " ++
        toString (p.durationMinutes.getD 25) ++ " minutes. The data shows " ++
        toString (durQualifying p e).length ++ " periods meeting these criteria. " ++
        (if (durQualifying p e).length > 0
          then "This meets the criteria." else "This does not meet the criteria."),
      details := Details.llmDur (durQualifying p e).length
        (p.heartRateThreshold.getD 120) (p.durationMinutes.getD 25) }
  else
    { fulfilled := true, confidence := 7 / 10,
      reasoning := "Based on the evidence provided, the user appears to have " ++
        "fulfilled their promise. The data shows consistent activity patterns " ++
        "that align with the promise criteria.",
      details := Details.llmOther }

/-- What the specification describes for the Duration evaluator: when the
elevated hr periods key is absent, invoke the detector on the heart-rate
data with the promise parameters.  Stated only for comparison with
evalDuration, which is the translation of the code. -/
def evalDurationSpecReading (p : Promise) (e : Evidence) : Option Verdict :=
  match e.elevatedHrPeriods with
  | some l => evalDuration p { e with elevatedHrPeriods := some l }
  | none =>
      evalDuration p
        { e with
          elevatedHrPeriods :=
            some (checkContinuousElevatedHeartRate (e.heartRateData.getD [])
              (p.heartRateThreshold.getD 120) (p.durationMinutes.getD 25)) }

/-- The six-sample series of the detector test: values 100, 100, 130, 130,
130, 100 at one-minute spacing. -/
def sampleSeries : List HRSample :=
  [⟨0, 100⟩, ⟨60000000, 100⟩, ⟨120000000, 130⟩, ⟨180000000, 130⟩,
   ⟨240000000, 130⟩, ⟨300000000, 100⟩]

set_option maxRecDepth 4000 in
/-- C1: the claim asserts the single detected interval spans exactly the
130-valued samples with duration 2 and average 130; on the code the
interval is closed at the below-threshold sample, so it spans minutes 2 to
5, has duration 3 and average (3 times 130 plus 100) over 4, which is
245 over 2, refuting the claimed duration and average. -/
theorem c1_counterexample :
    (checkContinuousElevatedHeartRate sampleSeries 120 2).map
        (fun iv => (iv.startTime, iv.endTime, iv.durationMinutes, iv.averageHeartRate)) =
      [(120000000, 300000000, (3 : ℚ), (245 / 2 : ℚ))] ∧
    (3 : ℚ) ≠ 2 ∧ (245 / 2 : ℚ) ≠ 130 := by
  refine ⟨?_, ?_, ?_⟩ <;> with_unfolding_all decide

set_option maxRecDepth 4000 in
/-- C1 amended: the detector called on the sample series with threshold
120 and minimum duration 2 returns exactly one interval, opened at the
first 130-valued sample and closed at the trailing 100-valued sample, so
its duration is 3 minutes and its average heart rate 245 over 2; the
minimum-duration comparison is inclusive: at minimum duration exactly 3
the interval is still emitted, at 4 it is not. -/
theorem c1_amended :
    (checkContinuousElevatedHeartRate sampleSeries 120 2).map
        (fun iv => (iv.startTime, iv.endTime, iv.durationMinutes, iv.averageHeartRate)) =
      [(120000000, 300000000, (3 : ℚ), (245 / 2 : ℚ))] ∧
    (checkContinuousElevatedHeartRate sampleSeries 120 3).map
        (fun iv => (iv.startTime, iv.endTime, iv.durationMinutes, iv.averageHeartRate)) =
      [(120000000, 300000000, (3 : ℚ), (245 / 2 : ℚ))] ∧
    checkContinuousElevatedHeartRate sampleSeries 120 4 = [] := by
  refine ⟨?_, ?_, ?_⟩ <;> with_unfolding_all decide

/-- Concrete duration promise over the single day 2023-01-03 and evidence
holding only heart-rate data (the sample series shifted to that day). -/
def durPromise : Promise :=
  ⟨"exercise_duration", mkDate 2023 1 3, mkDate 2023 1 3,
    some 1, some "day", some 120, some 2, Option.none⟩

/-- Evidence with heart-rate data but no elevated hr periods key. -/
def durEvidence : Evidence :=
  ⟨some (sampleSeries.map (fun s => ⟨s.ts + mkDate 2023 1 3, s.heartRate⟩)),
    Option.none, Option.none⟩

set_option maxRecDepth 4000 in
/-- C2: at a concrete input whose evidence has heart-rate data but no
elevated hr periods key, the duration evaluator returns the verdict of the
empty interval list (not fulfilled) and differs from the evaluation that
invokes the detector as the specification describes (fulfilled), refuting
the claim. -/
theorem c2_counterexample :
    (evaluate durPromise durEvidence).map (fun v => v.fulfilled) = some false ∧
    (evalDurationSpecReading durPromise durEvidence).map (fun v => v.fulfilled) =
      some true ∧
    evaluate durPromise durEvidence =
      evalDuration durPromise { durEvidence with elevatedHrPeriods := some [] } := by
  refine ⟨?_, ?_, rfl⟩ <;> with_unfolding_all decide

/-- C2 amended: when the elevated hr periods key is absent the duration
evaluator behaves exactly as if it were the empty list, whatever the
heart-rate data; it never invokes the detector (the service layer
precomputes elevated hr periods upstream). -/
theorem c2_amended (p : Promise) (e : Evidence) (h : e.elevatedHrPeriods = none) :
    evalDuration p e = evalDuration p { e with elevatedHrPeriods := some [] } := by
  rcases e with ⟨hr, ex, el⟩
  cases h
  rfl

/-- Witness for c2 amended at the concrete input of the counterexample
setting. -/
theorem c2_amended_witness :
    durEvidence.elevatedHrPeriods = none ∧
    evalDuration durPromise durEvidence =
      evalDuration durPromise { durEvidence with elevatedHrPeriods := some [] } :=
  ⟨rfl, c2_amended durPromise durEvidence rfl⟩

/-- C5: for a promise whose type is none of the three known rule types,
evaluate returns the degraded verdict (not fulfilled, confidence zero,
empty details) whose reasoning names the unknown type, and the unknown
type name occurs verbatim inside the reasoning string; the function is
total, so no exception can occur. -/
theorem c5_unknown_type (p : Promise) (e : Evidence)
    (h1 : p.ptype ≠ "exercise_frequency") (h2 : p.ptype ≠ "exercise_duration")
    (h3 : p.ptype ≠ "exercise_consistency") :
    evaluate p e = some
        { fulfilled := false, confidence := 0,
          reasoning := "Unknown promise type: " ++ p.ptype,
          details := Details.empty } ∧
    p.ptype.data <:+: ("Unknown promise type: " ++ p.ptype).data := by
  constructor
  · unfold evaluate
    rw [if_neg h1, if_neg h2, if_neg h3]
  · rw [String.data_append]
    exact (List.suffix_append _ _).isInfix

/-- Witness for c5 at the unknown type foo. -/
theorem c5_unknown_type_witness :
    evaluate ⟨"foo", 0, 0, Option.none, Option.none, Option.none, Option.none,
        Option.none⟩ ⟨Option.none, Option.none, Option.none⟩ = some
        { fulfilled := false, confidence := 0,
          reasoning := "Unknown promise type: " ++ "foo",
          details := Details.empty } ∧
    ("foo" : String).data <:+: ("Unknown promise type: " ++ "foo").data :=
  c5_unknown_type _ _ (by decide) (by decide) (by decide)

/-- C7: the claim asserts every rule-based verdict has confidence one; the
unknown-type verdict has confidence zero, a concrete refutation. -/
theorem c7_counterexample :
    (evaluate ⟨"foo", 0, 0, Option.none, Option.none, Option.none, Option.none,
        Option.none⟩ ⟨Option.none, Option.none, Option.none⟩).map
      (fun v => v.confidence) = some 0 ∧ (0 : ℚ) ≠ 1 := by
  refine ⟨?_, ?_⟩ <;> with_unfolding_all decide

/-- C7 amended: rule-based verdicts for the three known rule types always
report confidence one, the unknown-type fallback reports confidence zero,
and every verdict of the interpretive (mock LLM) evaluator reports
confidence strictly below one. -/
theorem c7_confidence (p : Promise) (e : Evidence) :
    (∀ v, (p.ptype = "exercise_frequency" ∨ p.ptype = "exercise_duration" ∨
        p.ptype = "exercise_consistency") →
      evaluate p e = some v → v.confidence = 1) ∧
    (∀ v, p.ptype ≠ "exercise_frequency" → p.ptype ≠ "exercise_duration" →
      p.ptype ≠ "exercise_consistency" →
      evaluate p e = some v → v.confidence = 0) ∧
    (llmEvaluate p e).confidence < 1 := by
  refine ⟨?_, ?_, ?_⟩
  · intro v hty hv
    unfold evaluate at hv
    rcases hty with h | h | h
    · rw [if_pos h] at hv
      unfold evalFrequency at hv
      rcases hg : freqPeriods p e with _ | l
      · rw [hg] at hv; exact absurd hv (by simp)
      · rw [hg] at hv
        simp only [Option.some.injEq] at hv
        rw [← hv]
    · have h1 : p.ptype ≠ "exercise_frequency" := by rw [h]; decide
      rw [if_neg h1, if_pos h] at hv
      unfold evalDuration at hv
      rcases hg : durPeriods p e with _ | l
      · rw [hg] at hv; exact absurd hv (by simp)
      · rw [hg] at hv
        simp only [Option.some.injEq] at hv
        rw [← hv]
    · have h1 : p.ptype ≠ "exercise_frequency" := by rw [h]; decide
      have h2 : p.ptype ≠ "exercise_duration" := by rw [h]; decide
      rw [if_neg h1, if_neg h2, if_pos h] at hv
      simp only [Option.some.injEq] at hv
      rw [← hv]
      rfl
  · intro v h1 h2 h3 hv
    unfold evaluate at hv
    rw [if_neg h1, if_neg h2, if_neg h3] at hv
    simp only [Option.some.injEq] at hv
    rw [← hv]
  · unfold llmEvaluate
    split_ifs <;> norm_num

/-- Witness for c7 confidence at concrete inputs: a consistency promise
(confidence one), and an LLM verdict below one. -/
theorem c7_confidence_witness :
    (∀ v, evaluate ⟨"exercise_consistency", 0, 0, Option.none, Option.none,
        Option.none, Option.none, Option.none⟩
        ⟨Option.none, Option.none, Option.none⟩ = some v → v.confidence = 1) ∧
    (llmEvaluate ⟨"foo", 0, 0, Option.none, Option.none, Option.none, Option.none,
        Option.none⟩ ⟨Option.none, Option.none, Option.none⟩).confidence < 1 := by
  constructor
  · intro v hv
    exact (c7_confidence ⟨"exercise_consistency", 0, 0, Option.none, Option.none,
      Option.none, Option.none, Option.none⟩
      ⟨Option.none, Option.none, Option.none⟩).1 v (Or.inr (Or.inr rfl)) hv
  · exact (c7_confidence ⟨"foo", 0, 0, Option.none, Option.none, Option.none,
      Option.none, Option.none⟩ ⟨Option.none, Option.none, Option.none⟩).2.2

/-- C9: the rule-based evaluation is a pure function of the promise and the
evidence: two calls on equal inputs return equal verdicts. -/
theorem c9_deterministic (p₁ p₂ : Promise) (e₁ e₂ : Evidence)
    (hp : p₁ = p₂) (he : e₁ = e₂) : evaluate p₁ e₁ = evaluate p₂ e₂ := by
  subst hp; subst he; rfl

/-- Witness for c9 at a concrete input. -/
theorem c9_deterministic_witness :
    evaluate durPromise durEvidence = evaluate durPromise durEvidence :=
  c9_deterministic durPromise durPromise durEvidence durEvidence rfl rfl

/-- The pairs of consecutive boundaries inspected by the consistency walk:
promise start against the first session start, each session end against
the next session start, and the last session end against the promise
end. -/
def boundaryPairs (startD : Int) (l : List Session) (endD : Int) : List (Int × Int) :=
  (startD :: l.map (fun s => s.endTime)).zip (l.map (fun s => s.startTime) ++ [endD])

/-- The gap walk records nothing exactly when every consecutive boundary
pair is within the allowed whole-day gap. -/
theorem collectGaps_eq_nil_iff (maxGap endD : Int) :
    ∀ (l : List Session) (cur : Int),
      collectGaps maxGap cur l endD = [] ↔
        ∀ pr ∈ boundaryPairs cur l endD, gapDaysI pr.1 pr.2 ≤ maxGap := by
  intro l
  induction l with
  | nil =>
    intro cur
    have hdef : collectGaps maxGap cur [] endD =
        (if gapDaysI cur endD > maxGap
          then [⟨cur, endD, gapDaysI cur endD⟩] else []) := rfl
    have hbp : boundaryPairs cur [] endD = [(cur, endD)] := rfl
    rw [hdef, hbp]
    constructor
    · intro h pr hpr
      have hpr2 := List.mem_singleton.mp hpr
      subst hpr2
      by_cases hc : gapDaysI cur endD > maxGap
      · exfalso
        rw [if_pos hc] at h
        exact absurd h (by simp)
      · simpa using (by omega : gapDaysI cur endD ≤ maxGap)
    · intro h
      have h1 : gapDaysI cur endD ≤ maxGap := by
        simpa using h (cur, endD) (List.mem_singleton.mpr rfl)
      rw [if_neg (by omega)]
  | cons sess rest ih =>
    intro cur
    have hdef : collectGaps maxGap cur (sess :: rest) endD =
        ((if gapDaysI cur sess.startTime > maxGap
            then [⟨cur, sess.startTime, gapDaysI cur sess.startTime⟩] else [])
          ++ collectGaps maxGap sess.endTime rest endD) := rfl
    have hbp : boundaryPairs cur (sess :: rest) endD =
        (cur, sess.startTime) :: boundaryPairs sess.endTime rest endD := rfl
    rw [hdef, hbp, List.append_eq_nil]
    constructor
    · intro h pr hpr
      have h1 : gapDaysI cur sess.startTime ≤ maxGap := by
        by_cases hc : gapDaysI cur sess.startTime > maxGap
        · exfalso
          rw [if_pos hc] at h
          exact absurd h.1 (by simp)
        · omega
      rcases List.mem_cons.mp hpr with hpr2 | hpr2
      · subst hpr2
        simpa using h1
      · exact (ih sess.endTime).mp h.2 pr hpr2
    · intro h
      refine ⟨?_, (ih sess.endTime).mpr (fun pr hpr => h pr (List.mem_cons_of_mem _ hpr))⟩
      have h1 : gapDaysI cur sess.startTime ≤ maxGap := by
        simpa using h (cur, sess.startTime) (List.mem_cons_self _ _)
      rw [if_neg (by omega)]

/-- C6: for every consistency promise, the sessions are walked in
ascending start-time order and the verdict is fulfilled exactly when every
whole-day gap between consecutive boundaries (promise start to first
session start, session end to next session start, last session end to
promise end) is within max gap days; the details carry the recorded
gaps. -/
theorem c6_consistency (p : Promise) (e : Evidence) (v : Verdict)
    (hty : p.ptype = "exercise_consistency") (hv : evaluate p e = some v) :
    List.Pairwise (fun a b => a.startTime ≤ b.startTime)
      (sortedSessions (e.exerciseSessions.getD [])) ∧
    (v.fulfilled = true ↔
      ∀ pr ∈ boundaryPairs p.startDate (sortedSessions (e.exerciseSessions.getD []))
          p.endDate,
        gapDaysI pr.1 pr.2 ≤ p.maxGapDays.getD 7) ∧
    v.details = Details.consistency (p.maxGapDays.getD 7) (consGaps p e).length
      (consGaps p e) := by
  have h1 : p.ptype ≠ "exercise_frequency" := by rw [hty]; decide
  have h2 : p.ptype ≠ "exercise_duration" := by rw [hty]; decide
  unfold evaluate at hv
  rw [if_neg h1, if_neg h2, if_pos hty] at hv
  simp only [Option.some.injEq] at hv
  subst hv
  refine ⟨?_, ?_, rfl⟩
  · have hs := @List.sorted_mergeSort Session
      (fun a b : Session => decide (a.startTime ≤ b.startTime))
      (fun a b c hab hbc => by
        simp only [decide_eq_true_eq] at *
        omega)
      (fun a b => by
        simp only [Bool.or_eq_true, decide_eq_true_eq]
        omega)
      (e.exerciseSessions.getD [])
    unfold sortedSessions
    exact hs.imp (fun h => by simpa using h)
  · show ((consGaps p e).isEmpty = true) ↔ _
    rw [List.isEmpty_iff]
    unfold consGaps
    exact collectGaps_eq_nil_iff _ _ _ _

/-- Witness for c6 at a concrete consistency promise with one session and
a promise window small enough that no gap is recorded. -/
theorem c6_consistency_witness :
    List.Pairwise (fun a b => a.startTime ≤ b.startTime)
      (sortedSessions ((⟨Option.none, some [⟨0, usPerDay⟩], Option.none⟩ :
        Evidence).exerciseSessions.getD [])) ∧
    (((evalConsistency ⟨"exercise_consistency", 0, usPerDay, Option.none, Option.none,
        Option.none, Option.none, Option.none⟩
        ⟨Option.none, some [⟨0, usPerDay⟩], Option.none⟩).fulfilled = true) ↔
      ∀ pr ∈ boundaryPairs 0 (sortedSessions [⟨0, usPerDay⟩]) usPerDay,
        gapDaysI pr.1 pr.2 ≤ 7) := by
  have h := c6_consistency
    ⟨"exercise_consistency", 0, usPerDay, Option.none, Option.none, Option.none,
      Option.none, Option.none⟩
    ⟨Option.none, some [⟨0, usPerDay⟩], Option.none⟩
    (evalConsistency ⟨"exercise_consistency", 0, usPerDay, Option.none, Option.none,
      Option.none, Option.none, Option.none⟩
      ⟨Option.none, some [⟨0, usPerDay⟩], Option.none⟩)
    rfl (by rfl)
  exact ⟨h.1, h.2.1⟩

/-- C8: a promise with an absent parameter evaluates exactly as the same
promise with the parameter set to its documented default: frequency 1,
period week, heart-rate threshold 120, duration minutes 25, max gap days
7; a missing parameter is never an error (the evaluation is total). -/
theorem c8_defaults (p : Promise) (e : Evidence) :
    evaluate { p with frequency := Option.none } e =
      evaluate { p with frequency := some 1 } e ∧
    evaluate { p with period := Option.none } e =
      evaluate { p with period := some "week" } e ∧
    evaluate { p with heartRateThreshold := Option.none } e =
      evaluate { p with heartRateThreshold := some 120 } e ∧
    evaluate { p with durationMinutes := Option.none } e =
      evaluate { p with durationMinutes := some 25 } e ∧
    evaluate { p with maxGapDays := Option.none } e =
      evaluate { p with maxGapDays := some 7 } e :=
  ⟨rfl, rfl, rfl, rfl, rfl⟩

/-- C10: over an empty date range (start after end) the frequency and
duration evaluators still return a fully formed verdict: not fulfilled,
confidence one, a details breakdown with zero total periods, and the
fulfillment percentage is produced by the guarded branch rather than a
division by the zero period count. -/
theorem c10_zero_periods (p : Promise) (e : Evidence) (h : p.endDate < p.startDate) :
    (p.ptype = "exercise_frequency" →
      ∃ r, evaluate p e = some ⟨false, 1, r, Details.freq [] 0 0⟩) ∧
    (p.ptype = "exercise_duration" →
      ∃ r q, evaluate p e = some ⟨false, 1, r, Details.dur [] 0 0 q⟩) := by
  constructor
  · intro hty
    refine ⟨freqReason p 0 0, ?_⟩
    have hfp : freqPeriods p e = some [] := by
      unfold freqPeriods groupByPeriod
      rw [if_pos h]
    unfold evaluate
    rw [if_pos hty]
    unfold evalFrequency
    rw [hfp]
    with_unfolding_all rfl
  · intro hty
    have h1 : p.ptype ≠ "exercise_frequency" := by rw [hty]; decide
    refine ⟨durReason p 0 0, (durQualifying p e).length, ?_⟩
    have hfp : durPeriods p e = some [] := by
      unfold durPeriods groupByPeriod
      rw [if_pos h]
    unfold evaluate
    rw [if_neg h1, if_pos hty]
    unfold evalDuration
    rw [hfp]
    with_unfolding_all rfl

/-- Witness for c10 at concrete frequency and duration promises whose end
precedes their start. -/
theorem c10_zero_periods_witness :
    (∃ r, evaluate ⟨"exercise_frequency", usPerDay, 0, Option.none, Option.none,
        Option.none, Option.none, Option.none⟩
        ⟨Option.none, Option.none, Option.none⟩ =
      some ⟨false, 1, r, Details.freq [] 0 0⟩) ∧
    (∃ r q, evaluate ⟨"exercise_duration", usPerDay, 0, Option.none, Option.none,
        Option.none, Option.none, Option.none⟩
        ⟨Option.none, Option.none, Option.none⟩ =
      some ⟨false, 1, r, Details.dur [] 0 0 q⟩) :=
  ⟨(c10_zero_periods ⟨"exercise_frequency", usPerDay, 0, Option.none, Option.none,
      Option.none, Option.none, Option.none⟩
      ⟨Option.none, Option.none, Option.none⟩ (by decide)).1 rfl,
   (c10_zero_periods ⟨"exercise_duration", usPerDay, 0, Option.none, Option.none,
      Option.none, Option.none, Option.none⟩
      ⟨Option.none, Option.none, Option.none⟩ (by decide)).2 rfl⟩

/-- One loop iteration happens whenever the cursor starts within range, so
at least one key is generated. -/
theorem genKeys_pos (period : String) (f : Nat) (cursor endD : Int) (h : cursor ≤ endD) :
    1 ≤ (genKeys period (f + 1) cursor endD []).length := by
  show 1 ≤ (if cursor ≤ endD then
      genKeys period f (advanceCursor period cursor) endD
        (insertKey [] (periodStart period cursor))
    else []).length
  rw [if_pos h]
  have hmono := genKeys_length_mono period f (advanceCursor period cursor) endD
    (insertKey [] (periodStart period cursor))
  have hone : (insertKey [] (periodStart period cursor)).length = 1 := by
    unfold insertKey
    simp
  omega

/-- A nonempty range always produces at least one period bucket. -/
theorem groupByPeriod_pos {α : Type} (items : List α) (period : String)
    (startD endD : Int) (tsOf : α → Int) (l : List (Int × List α))
    (hse : startD ≤ endD)
    (hg : groupByPeriod items period startD endD tsOf = some l) : 0 < l.length := by
  unfold groupByPeriod at hg
  rw [if_neg (by omega)] at hg
  by_cases hk : knownPeriod period
  · rw [if_pos hk] at hg
    simp only [Option.some.injEq] at hg
    subst hg
    rw [List.length_map]
    exact genKeys_pos period ((dayOf endD - dayOf startD).toNat + 1) startD endD hse
  · rw [if_neg hk] at hg
    cases hg

/-- C4: on a frequency promise with a nonempty date range, the verdict is
fulfilled exactly when the number of periods whose session count reaches
the frequency parameter equals the total number of generated periods (a
conjunction over all periods, not a percentage threshold), and the details
always carry the per-period breakdown together with the fulfilled and
total period counts, also when the verdict is negative. -/
theorem c4_frequency_all_periods (p : Promise) (e : Evidence) (v : Verdict)
    (hty : p.ptype = "exercise_frequency") (hse : p.startDate ≤ p.endDate)
    (hv : evaluate p e = some v) :
    ∃ pds : List PeriodDetail, ∃ total fc : Nat,
      v.details = Details.freq pds total fc ∧
      total = pds.length ∧ 0 < total ∧
      fc = (pds.filter (fun pd => pd.fulfilled)).length ∧
      (∀ pd ∈ pds, pd.fulfilled = decide ((pd.sessionsCount : Int) ≥ p.frequency.getD 1)) ∧
      (v.fulfilled = true ↔ fc = total) := by
  unfold evaluate at hv
  rw [if_pos hty] at hv
  unfold evalFrequency at hv
  rcases hg : freqPeriods p e with _ | periods
  · rw [hg] at hv
    cases hv
  · rw [hg] at hv
    simp only [Option.some.injEq] at hv
    subst hv
    have hpos : 0 < periods.length :=
      groupByPeriod_pos _ _ _ _ _ _ hse hg
    refine ⟨periodDetails (p.period.getD "week") (p.frequency.getD 1) periods,
      periods.length, countFulfilled (p.frequency.getD 1) periods, rfl, ?_, hpos, ?_, ?_, ?_⟩
    · unfold periodDetails
      rw [List.length_map]
    · unfold countFulfilled periodDetails
      rw [List.filter_map, List.length_map]
      rfl
    · intro pd hpd
      unfold periodDetails at hpd
      rcases List.mem_map.mp hpd with ⟨pr, hpr, hprd⟩
      subst hprd
      rfl
    · show decide (pctOf (countFulfilled (p.frequency.getD 1) periods)
          periods.length ≥ 1) = true ↔ _
      rw [decide_eq_true_iff]
      unfold pctOf
      rw [if_pos hpos]
      rw [ge_iff_le, one_le_div (by exact_mod_cast hpos)]
      have hub : countFulfilled (p.frequency.getD 1) periods ≤ periods.length := by
        unfold countFulfilled
        exact List.length_filter_le _ _
      constructor
      · intro hle
        have hle2 : periods.length ≤ countFulfilled (p.frequency.getD 1) periods := by
          exact_mod_cast hle
        omega
      · intro heq
        have : periods.length ≤ countFulfilled (p.frequency.getD 1) periods := by omega
        exact_mod_cast this

/-- Witness for c4 at a one-day frequency promise with no sessions: one
generated period, zero fulfilled periods, verdict not fulfilled, details
populated. -/
theorem c4_frequency_all_periods_witness :
    ∃ pds : List PeriodDetail, ∃ total fc : Nat,
      (⟨false, 1, freqReason ⟨"exercise_frequency", mkDate 2023 1 3, mkDate 2023 1 3,
          some 1, some "day", Option.none, Option.none, Option.none⟩ 0 1,
        Details.freq [mkPeriodDetail "day" 1 0 (mkDate 2023 1 3)] 1 0⟩ : Verdict).details =
        Details.freq pds total fc ∧
      total = pds.length ∧ 0 < total ∧
      fc = (pds.filter (fun pd => pd.fulfilled)).length ∧
      (∀ pd ∈ pds, pd.fulfilled = decide ((pd.sessionsCount : Int) ≥
        (⟨"exercise_frequency", mkDate 2023 1 3, mkDate 2023 1 3,
          some 1, some "day", Option.none, Option.none, Option.none⟩ :
            Promise).frequency.getD 1)) ∧
      ((⟨false, 1, freqReason ⟨"exercise_frequency", mkDate 2023 1 3, mkDate 2023 1 3,
          some 1, some "day", Option.none, Option.none, Option.none⟩ 0 1,
        Details.freq [mkPeriodDetail "day" 1 0 (mkDate 2023 1 3)] 1 0⟩ : Verdict).fulfilled
          = true ↔ fc = total) :=
  c4_frequency_all_periods
    ⟨"exercise_frequency", mkDate 2023 1 3, mkDate 2023 1 3,
      some 1, some "day", Option.none, Option.none, Option.none⟩
    ⟨Option.none, some [], Option.none⟩ _ rfl (by decide)
    (by with_unfolding_all rfl)

/-- C3 counterexample: for a week-granularity range starting Tuesday
2023-01-03 at 15:30, the single generated period starts at Monday
2023-01-02 at 15:30 (the weekday subtraction keeps the time of day), which
is not the Monday-midnight canonical boundary mkDate 2023 1 2. -/
theorem c3_counterexample :
    genKeys "week"
        (periodFuel (mkDate 2023 1 3 + 930 * usPerMin) (mkDate 2023 1 5))
        (mkDate 2023 1 3 + 930 * usPerMin) (mkDate 2023 1 5) [] =
      [mkDate 2023 1 2 + 930 * usPerMin] ∧
    mkDate 2023 1 2 + 930 * usPerMin ≠ mkDate 2023 1 2 ∧
    weekdayOf (mkDate 2023 1 2) = 0 ∧ mkDate 2023 1 2 % usPerDay = 0 := by
  refine ⟨?_, ?_, ?_, ?_⟩ <;> decide

/-- C3 amended: the first generated period starts at the day truncated to
midnight for day granularity and at the first of the month at midnight for
month granularity, but for week granularity it starts at the most recent
Monday at the start timestamp time of day (weekday subtraction, not a
midnight boundary); and group by period buckets an item by applying this
same period-start rule to the item own timestamp. -/
theorem c3_amended :
    (∀ t : Int,
      periodStart "day" t = dayOf t * usPerDay ∧
      periodStart "month" t = (dayOf t - (domOf t - 1)) * usPerDay ∧
      periodStart "week" t = t - weekdayOf t * usPerDay ∧
      weekdayOf (periodStart "week" t) = 0 ∧
      periodStart "week" t ≤ t ∧
      t - periodStart "week" t < 7 * usPerDay ∧
      periodStart "week" t % usPerDay = t % usPerDay) ∧
    (∀ (α : Type) (items : List α) (period : String) (startD endD : Int)
      (tsOf : α → Int) (l : List (Int × List α)) (k : Int) (bucket : List α) (it : α),
      groupByPeriod items period startD endD tsOf = some l →
      (k, bucket) ∈ l → it ∈ bucket → periodStart period (tsOf it) = k) := by
  constructor
  · intro t
    have hday : periodStart "day" t = mkDate (yearOf t) (monthOf t) (domOf t) := by
      unfold periodStart
      rw [if_pos rfl]
    have hweekeq : periodStart "week" t = t - weekdayOf t * usPerDay := by
      unfold periodStart
      rw [if_neg (by decide), if_pos rfl]
    have hmonth : periodStart "month" t = mkDate (yearOf t) (monthOf t) 1 := by
      unfold periodStart
      rw [if_neg (by decide), if_neg (by decide), if_pos rfl]
    refine ⟨?_, ?_, hweekeq, ?_, ?_, ?_, ?_⟩
    · rw [hday, mkDate_truncate]
    · rw [hmonth]
      rcases hcv : civilFromDays (dayOf t) with ⟨y, m, d⟩
      have hs := civilFromDays_spec _ _ _ _ hcv
      unfold mkDate yearOf monthOf domOf
      rw [hcv]
      dsimp only
      have h1 : dayNumber y m 1 = dayNumber y m d - (d - 1) := by
        unfold dayNumber
        omega
      rw [h1, hs.1]
    · rw [hweekeq]
      unfold weekdayOf dayOf usPerDay
      omega
    · rw [hweekeq]
      unfold weekdayOf dayOf usPerDay
      omega
    · rw [hweekeq]
      unfold weekdayOf dayOf usPerDay
      omega
    · rw [hweekeq]
      unfold weekdayOf dayOf usPerDay
      omega
  · intro α items period startD endD tsOf l k bucket it hg hkb hit
    unfold groupByPeriod at hg
    by_cases hlt : endD < startD
    · rw [if_pos hlt] at hg
      simp only [Option.some.injEq] at hg
      subst hg
      cases hkb
    · rw [if_neg hlt] at hg
      by_cases hk : knownPeriod period
      · rw [if_pos hk] at hg
        simp only [Option.some.injEq] at hg
        subst hg
        rcases List.mem_map.mp hkb with ⟨key, hkey, heq⟩
        simp only [Prod.mk.injEq] at heq
        obtain ⟨h1, h2⟩ := heq
        subst h1
        subst h2
        have hmem := List.mem_filter.mp hit
        simpa using hmem.2
      · rw [if_neg hk] at hg
        cases hg

/-- Witness for c3 amended at concrete inputs: the day period start of a
concrete timestamp, and a concrete grouping where the bucket key is the
period start of the item own timestamp. -/
theorem c3_amended_witness :
    periodStart "day" (mkDate 2023 1 3) = dayOf (mkDate 2023 1 3) * usPerDay ∧
    periodStart "day" (5 : Int) = 0 :=
  ⟨(c3_amended.1 (mkDate 2023 1 3)).1,
   c3_amended.2 Int [(5 : Int)] "day" 0 0 (fun x => x) [(0, [(5 : Int)])] 0
     [(5 : Int)] 5 (by decide) (by decide) (by decide)⟩

end SelfPromise
